import Mathlib

/-!
Shallow embedding of the vmware-fusion-mcp-server core:
`vmware_fusion_mcp/vmware_client.py` (the Resource Client) and
`vmware_fusion_mcp/server.py` (the Tool Dispatcher).

JSON payloads are modelled by an inductive `JValue`; HTTP transport is a
function from requests to either a transport error (httpx.RequestError,
carrying its message) or a response whose body arrives both as raw text and
already parsed (`response.json()` is not re-modelled as a parser).  Python
exceptions are values of `PyError`; `async with` scoping is explicit state
passing on `ServerState`.  Every network call actually handed to the
transport is recorded in an output list, so "zero HTTP calls" claims are
statements about that list.
-/

namespace VMwareFusionMCP

/-- A JSON-compatible Python value: None, bool, int, str, list, dict.
Dicts are association lists, preserving the key order the remote API
returned (Python dicts preserve insertion order). -/
inductive JValue where
  | null : JValue
  | bool (b : Bool) : JValue
  | int (n : Int) : JValue
  | str (s : String) : JValue
  | arr (elems : List JValue) : JValue
  | obj (fields : List (String × JValue)) : JValue

/-- First-match lookup in a dict's association list (Python `d[k]` / `d.get(k)`;
keys coming from parsed JSON are unique). -/
def jLookup (key : String) : List (String × JValue) → Option JValue
  | [] => none
  | (k, v) :: rest => if k = key then some v else jLookup key rest

/-- Python truthiness (`if not vms:` and `if result.get("status"):`). -/
def pyTruthy : JValue → Bool
  | .null => false
  | .bool b => b
  | .int n => n != 0
  | .str s => !s.isEmpty
  | .arr l => !l.isEmpty
  | .obj l => !l.isEmpty

mutual

/-- Python `repr` of a JSON-compatible value (string escaping elided: the
values the claims exercise contain no quotes or backslashes). -/
def pyRepr : JValue → String
  | .null => "None"
  | .bool b => if b then "True" else "False"
  | .int n => toString n
  | .str s => "\x27" ++ s ++ "\x27"
  | .arr elems => "[" ++ String.intercalate ", " (pyReprList elems) ++ "]"
  | .obj fields => "\x7b" ++ String.intercalate ", " (pyReprObj fields) ++ "\x7d"

/-- `repr` of each element of a list. -/
def pyReprList : List JValue → List String
  | [] => []
  | v :: rest => pyRepr v :: pyReprList rest

/-- `repr` of each `key: value` entry of a dict. -/
def pyReprObj : List (String × JValue) → List String
  | [] => []
  | (k, v) :: rest => ("\x27" ++ k ++ "\x27: " ++ pyRepr v) :: pyReprObj rest

end

/-- Python `str` of a JSON-compatible value, as used by f-string
interpolation: a string renders bare, every other value as its `repr`. -/
def pyStr : JValue → String
  | .str s => s
  | v => pyRepr v

/-- One step of Python `str.title()`: upper-case a letter that follows a
non-letter, lower-case a letter that follows a letter. -/
def pyTitleGo : Bool → List Char → List Char
  | _, [] => []
  | prevAlpha, c :: rest =>
    let c2 := if c.isAlpha then (if prevAlpha then c.toLower else c.toUpper) else c
    c2 :: pyTitleGo c.isAlpha rest

/-- Python `str.title()` (ASCII model). -/
def pyTitle (s : String) : String := String.mk (pyTitleGo false s.toList)

/-- Python type name, for `AttributeError` / `TypeError` messages. -/
def pyTypeName : JValue → String
  | .null => "NoneType"
  | .bool _ => "bool"
  | .int _ => "int"
  | .str _ => "str"
  | .arr _ => "list"
  | .obj _ => "dict"

/-- Kind of a raised Python exception.  The dispatcher's blanket
`except Exception` treats all kinds alike; the kind records which class the
source raises. -/
inductive PyErrorKind where
  | valueError
  | runtimeError
  | attributeError
  | typeError
  | validationError
  | genericException
deriving DecidableEq, Repr

/-- A raised Python exception: its class and the text `str(e)` yields. -/
structure PyError where
  kind : PyErrorKind
  msg : String
deriving DecidableEq, Repr

/-- `AttributeError: '<type>' object has no attribute '<attr>'`. -/
def attrErr (v : JValue) (attr : String) : PyError :=
  ⟨.attributeError,
    "\x27" ++ pyTypeName v ++ "\x27 object has no attribute \x27" ++ attr ++ "\x27"⟩

/-- `result.get(key)`: `none`-defaulted lookup on a dict, `AttributeError`
on any other value. -/
def pyGet (v : JValue) (key : String) : Except PyError (Option JValue) :=
  match v with
  | .obj fields => .ok (jLookup key fields)
  | other => .error (attrErr other "get")

/-- Python iteration (`for vm in vms`): lists yield elements, dicts yield
their keys, strings yield 1-character strings, the rest raise `TypeError`. -/
def pyIter : JValue → Except PyError (List JValue)
  | .arr l => .ok l
  | .obj fields => .ok (fields.map (fun kv => .str kv.1))
  | .str s => .ok (s.toList.map (fun c => .str (String.mk [c])))
  | v => .error ⟨.typeError, "\x27" ++ pyTypeName v ++ "\x27 object is not iterable"⟩

/-- An HTTP request as issued by `httpx.AsyncClient.get` / `.post`
(no body or headers are ever supplied by this code). -/
structure HttpRequest where
  method : String
  url : String
deriving DecidableEq, Repr

/-- An HTTP response: status code, raw body text (`response.text`, with
`response.content` empty exactly when the text is empty), and the parsed
JSON body (`response.json()`), delivered pre-parsed by the transport model. -/
structure HttpResponse where
  status : Nat
  text : String
  jsonVal : JValue

/-- The transport: what the network does with one request.  `.error msg`
models `httpx.RequestError` with message `msg`. -/
def Net := HttpRequest → Except String HttpResponse

/-- `VMwareClient`'s state: configured base URL (trailing slashes stripped
in `__init__`) and whether `self._client` (the `httpx.AsyncClient`) has been
closed by `aclose()`. -/
structure VMwareClient where
  base_url : String
  closed : Bool
deriving DecidableEq, Repr

/-- Python `base_url.rstrip("/")`. -/
def rstripSlashes (s : String) : String :=
  String.mk ((s.toList.reverse.dropWhile (fun c => c = '/')).reverse)

/-- `VMwareClient.__init__`: strips trailing slashes off the base URL and
creates a fresh (open) `httpx.AsyncClient`.  The unused username/password
fields are omitted from the state. -/
def VMwareClient.new (base_url : String) : VMwareClient :=
  ⟨rstripSlashes base_url, false⟩

/-- The default base URL of `VMwareClient.__init__`. -/
def defaultBaseUrl : String := "http://localhost:8697"

/-- httpx's `RuntimeError` when a request is sent on a closed client. -/
def closedClientErr : PyError :=
  ⟨.runtimeError, "Cannot send a request, as the client has been closed."⟩

/-- The `except httpx.RequestError` re-raise common to all three operations. -/
def connectErr (cause : String) : PyError :=
  ⟨.genericException, "Failed to connect to VMware Fusion API: " ++ cause⟩

/-- The `except httpx.HTTPStatusError` generic re-raise:
`VMware Fusion API error: {status_code} - {text}`. -/
def apiErr (status : Nat) (text : String) : PyError :=
  ⟨.genericException,
    "VMware Fusion API error: " ++ toString status ++ " - " ++ text⟩

/-- The tailored 404 message of `get_vm_info` / `power_vm`. -/
def notFoundErr (vm_id : String) : PyError :=
  ⟨.genericException, "VM with ID \x27" ++ vm_id ++ "\x27 not found"⟩

/-- `VMwareClient.list_vms`: one GET to `{base_url}/fusionsvc/vms`;
`raise_for_status` maps non-2xx to the generic API error; on success the
parsed JSON body is returned as-is.  The second component records the
requests actually handed to the transport (none when the session is
already closed, since httpx raises before sending). -/
def VMwareClient.list_vms (c : VMwareClient) (net : Net) :
    Except PyError JValue × List HttpRequest :=
  let req : HttpRequest := ⟨"GET", c.base_url ++ "/fusionsvc/vms"⟩
  if c.closed then (.error closedClientErr, [])
  else
    match net req with
    | .error cause => (.error (connectErr cause), [req])
    | .ok resp =>
      if 200 ≤ resp.status ∧ resp.status < 300 then (.ok resp.jsonVal, [req])
      else (.error (apiErr resp.status resp.text), [req])

/-- `VMwareClient.get_vm_info`: one GET to `{base_url}/fusionsvc/vms/{vm_id}`;
404 gets the tailored not-found message, any other non-2xx the generic API
error. -/
def VMwareClient.get_vm_info (c : VMwareClient) (net : Net) (vm_id : String) :
    Except PyError JValue × List HttpRequest :=
  let req : HttpRequest := ⟨"GET", c.base_url ++ "/fusionsvc/vms/" ++ vm_id⟩
  if c.closed then (.error closedClientErr, [])
  else
    match net req with
    | .error cause => (.error (connectErr cause), [req])
    | .ok resp =>
      if 200 ≤ resp.status ∧ resp.status < 300 then (.ok resp.jsonVal, [req])
      else if resp.status = 404 then (.error (notFoundErr vm_id), [req])
      else (.error (apiErr resp.status resp.text), [req])

/-- The closed set of valid power actions (`valid_actions` in the source). -/
def validActions : List String := ["on", "off", "suspend", "pause", "unpause", "reset"]

/-- The `ValueError` raised by `power_vm` on an action outside the set:
`Invalid action '{action}'. Valid actions: {valid_actions}` (the list
rendered as Python prints it). -/
def invalidActionErr (action : String) : PyError :=
  ⟨.valueError,
    "Invalid action \x27" ++ action ++ "\x27. Valid actions: " ++
      pyStr (.arr (validActions.map JValue.str))⟩

/-- `VMwareClient.power_vm`: validates the action before any I/O, then one
POST to `{base_url}/fusionsvc/vms/{vm_id}/{action}`; on a 2xx response an
empty body is replaced by the synthesized `{"status": "success",
"action": action}`; 404 and other non-2xx map as in `get_vm_info`. -/
def VMwareClient.power_vm (c : VMwareClient) (net : Net)
    (vm_id action : String) : Except PyError JValue × List HttpRequest :=
  if action ∉ validActions then (.error (invalidActionErr action), [])
  else
    let req : HttpRequest := ⟨"POST", c.base_url ++ "/fusionsvc/vms/" ++ vm_id ++ "/" ++ action⟩
    if c.closed then (.error closedClientErr, [])
    else
      match net req with
      | .error cause => (.error (connectErr cause), [req])
      | .ok resp =>
        if 200 ≤ resp.status ∧ resp.status < 300 then
          (.ok (if resp.text = "" then
                  .obj [("status", .str "success"), ("action", .str action)]
                else resp.jsonVal), [req])
        else if resp.status = 404 then (.error (notFoundErr vm_id), [req])
        else (.error (apiErr resp.status resp.text), [req])

/-- The envelope `mcp.types.CallToolResult` as this server builds it: one
text content block, an optional structured-content mapping, and the error
flag. -/
structure CallToolResult where
  text : String
  structuredContent : Option JValue
  isError : Bool

/-- The dispatcher's mutable module state: the lazily created global
`vmware_client` of `server.py`. -/
structure ServerState where
  vmware_client : Option VMwareClient

/-- A fresh process: no client created yet. -/
def ServerState.init : ServerState := ⟨none⟩

/-- The client a handler body works with: the stored global, or — when the
global is still `None` — the fresh `VMwareClient()` that
`get_vmware_client` creates and stores. -/
def ServerState.effClient (st : ServerState) : VMwareClient :=
  st.vmware_client.getD (VMwareClient.new defaultBaseUrl)

/-- State after a handler's `async with get_vmware_client()` block:
the global holds the (possibly just created) client, whose underlying
httpx session `__aexit__` has closed via `aclose()`.  This runs on every
exit path, success or raised exception. -/
def ServerState.afterDispatch (st : ServerState) : ServerState :=
  ⟨some { st.effClient with closed := true }⟩

/-- Pydantic validation of `GetVMInfoParams(**arguments)`: the declared
field `vm_id : str` is required to be present and a string; undeclared keys
are ignored (pydantic's default `extra="ignore"`); no non-empty constraint
is declared.  The multi-line pydantic error text is abstracted to a
one-line summary (no claim depends on its exact wording). -/
def validateGetVMInfoParams (args : List (String × JValue)) :
    Except PyError String :=
  match jLookup "vm_id" args with
  | some (.str s) => .ok s
  | some _ =>
      .error ⟨.validationError,
        "1 validation error for GetVMInfoParams: vm_id: Input should be a valid string"⟩
  | none =>
      .error ⟨.validationError,
        "1 validation error for GetVMInfoParams: vm_id: Field required"⟩

/-- One field's pydantic diagnosis for `PowerVMParams`: `none` when the
field is present and a string. -/
def fieldErr (field : String) : Option JValue → Option String
  | none => some (field ++ ": Field required")
  | some (.str _) => none
  | some _ => some (field ++ ": Input should be a valid string")

/-- Pydantic validation of `PowerVMParams(**arguments)`: both declared
fields `vm_id : str` and `action : str` must be present strings; undeclared
keys are ignored; `action` has no enum constraint in the pydantic model
(the enum lives only in the advertised JSON schema). -/
def validatePowerVMParams (args : List (String × JValue)) :
    Except PyError (String × String) :=
  match jLookup "vm_id" args, jLookup "action" args with
  | some (.str v), some (.str a) => .ok (v, a)
  | mv, ma =>
      .error ⟨.validationError,
        "validation error for PowerVMParams: " ++
          String.intercalate "; " ((fieldErr "vm_id" mv).toList ++ (fieldErr "action" ma).toList)⟩

/-- A separator line of `n` copies of `ch` (Python `ch * n`). -/
def sepLine (ch : Char) (n : Nat) : String := String.mk (List.replicate n ch)

/-- The per-VM lines of `handle_list_vms`'s loop body: `ID: {id}`,
`Path: {path}` (each `vm.get(field, "Unknown")`) and a 30-dash separator;
a non-dict element raises `AttributeError` at `.get`, aborting the loop as
in Python. -/
def iterVMLines : List JValue → Except PyError (List String)
  | [] => .ok []
  | vm :: rest =>
    match vm with
    | .obj fields =>
      let vm_id := (jLookup "id" fields).getD (.str "Unknown")
      let vm_path := (jLookup "path" fields).getD (.str "Unknown")
      match iterVMLines rest with
      | .error e => .error e
      | .ok tail =>
          .ok (("ID: " ++ pyStr vm_id) :: ("Path: " ++ pyStr vm_path) ::
                sepLine (Char.ofNat 45) 30 :: tail)
    | other => .error (attrErr other "get")

/-- The body of `handle_list_vms` after the client call: empty (falsy)
result gives the fixed no-VMs text and `{"vms": []}`; otherwise the header,
a 50-`=` separator and the per-VM lines, with `{"vms": vms}` structured. -/
def formatListVMs (vms : JValue) : Except PyError CallToolResult :=
  if pyTruthy vms then
    match pyIter vms with
    | .error e => .error e
    | .ok items =>
      match iterVMLines items with
      | .error e => .error e
      | .ok entryLines =>
          .ok ⟨String.intercalate "\n"
                 ("VMware Fusion VMs:" :: sepLine (Char.ofNat 61) 50 :: entryLines),
               some (.obj [("vms", vms)]), false⟩
  else
    .ok ⟨"No VMs found in VMware Fusion.", some (.obj [("vms", .arr [])]), false⟩

/-- The lines `handle_get_vm_info` emits for one `key, value` pair: a
title-cased key header plus indented sub-entries when the value is a dict,
one `Key: value` line otherwise. -/
def infoLines (kv : String × JValue) : List String :=
  match kv.2 with
  | .obj sub =>
      (pyTitle kv.1 ++ ":") ::
        sub.map (fun skv => "  " ++ skv.1 ++ ": " ++ pyStr skv.2)
  | other => [pyTitle kv.1 ++ ": " ++ pyStr other]

/-- The body of `handle_get_vm_info` after the client call: the header with
the vm_id, a 50-`=` separator, the per-key lines; structured content is the
raw detail mapping unmodified.  A non-dict detail raises `AttributeError`
at `.items()`. -/
def formatVMInfo (vm_id : String) (vm_info : JValue) :
    Except PyError CallToolResult :=
  match vm_info with
  | .obj fields =>
      .ok ⟨String.intercalate "\n"
             (("VM Information for ID: " ++ vm_id) :: sepLine (Char.ofNat 61) 50 ::
               fields.flatMap infoLines),
           some vm_info, false⟩
  | other => .error (attrErr other "items")

/-- The body of `handle_power_vm` after the client call: the success text,
with ` - Status: {status}` appended exactly when `result.get("status")` is
truthy; structured content is the raw result unmodified.  A non-dict result
raises `AttributeError` at `.get`. -/
def formatPowerVM (vm_id action : String) (result : JValue) :
    Except PyError CallToolResult :=
  match result with
  | .obj fields =>
      let base := "Successfully performed \x27" ++ action ++ "\x27 action on VM " ++ vm_id
      let content :=
        match jLookup "status" fields with
        | some sv => if pyTruthy sv then base ++ " - Status: " ++ pyStr sv else base
        | none => base
      .ok ⟨content, some result, false⟩
  | other => .error (attrErr other "get")

/-- `handle_list_vms`: acquire the client, call `list_vms`, format.  The
result triple is (outcome, new state, requests handed to the transport). -/
def handle_list_vms (st : ServerState) (net : Net) :
    Except PyError CallToolResult × ServerState × List HttpRequest :=
  match st.effClient.list_vms net with
  | (.error e, reqs) => (.error e, st.afterDispatch, reqs)
  | (.ok vms, reqs) => (formatListVMs vms, st.afterDispatch, reqs)

/-- `handle_get_vm_info`. -/
def handle_get_vm_info (vm_id : String) (st : ServerState) (net : Net) :
    Except PyError CallToolResult × ServerState × List HttpRequest :=
  match st.effClient.get_vm_info net vm_id with
  | (.error e, reqs) => (.error e, st.afterDispatch, reqs)
  | (.ok vm_info, reqs) => (formatVMInfo vm_id vm_info, st.afterDispatch, reqs)

/-- `handle_power_vm`. -/
def handle_power_vm (vm_id action : String) (st : ServerState) (net : Net) :
    Except PyError CallToolResult × ServerState × List HttpRequest :=
  match st.effClient.power_vm net vm_id action with
  | (.error e, reqs) => (.error e, st.afterDispatch, reqs)
  | (.ok result, reqs) => (formatPowerVM vm_id action result, st.afterDispatch, reqs)

/-- The `try` block of `handle_call_tool`, the dispatch boundary: route on
the tool name (an unknown name raises `ValueError("Unknown tool: {name}")`
inside the `try`), validate arguments through the pydantic models, run the
handler. -/
def handle_call_tool_try (name : String) (arguments : List (String × JValue))
    (st : ServerState) (net : Net) :
    Except PyError CallToolResult × ServerState × List HttpRequest :=
  if name = "list_vms" then
    handle_list_vms st net
  else if name = "get_vm_info" then
    match validateGetVMInfoParams arguments with
    | .error e => (.error e, st, [])
    | .ok vm_id => handle_get_vm_info vm_id st net
  else if name = "power_vm" then
    match validatePowerVMParams arguments with
    | .error e => (.error e, st, [])
    | .ok p => handle_power_vm p.1 p.2 st net
  else
    (.error ⟨.valueError, "Unknown tool: " ++ name⟩, st, [])

/-- `handle_call_tool`'s blanket `except Exception`: any exception `e` from
the try block becomes `CallToolResult(content=[TextContent("Error: " +
str(e))], isError=True)` with no structured content. -/
def handle_call_tool (name : String) (arguments : List (String × JValue))
    (st : ServerState) (net : Net) :
    CallToolResult × ServerState × List HttpRequest :=
  match handle_call_tool_try name arguments st net with
  | (.ok res, st2, reqs) => (res, st2, reqs)
  | (.error e, st2, reqs) =>
      (⟨"Error: " ++ e.msg, none, true⟩, st2, reqs)

/-! ## Helper lemmas: success envelopes never carry the error flag -/

theorem formatListVMs_okNoFlag {vms : JValue} {res : CallToolResult}
    (h : formatListVMs vms = .ok res) : res.isError = false := by
  unfold formatListVMs at h
  split at h <;> try (split at h) <;> try (split at h)
  all_goals simp_all
  all_goals (subst h; rfl)

theorem formatVMInfo_okNoFlag {vm_id : String} {v : JValue} {res : CallToolResult}
    (h : formatVMInfo vm_id v = .ok res) : res.isError = false := by
  unfold formatVMInfo at h
  split at h
  all_goals simp_all
  subst h; rfl

theorem formatPowerVM_okNoFlag {vm_id action : String} {v : JValue} {res : CallToolResult}
    (h : formatPowerVM vm_id action v = .ok res) : res.isError = false := by
  unfold formatPowerVM at h
  split at h
  all_goals simp_all
  subst h; rfl

theorem handle_list_vms_okNoFlag {st : ServerState} {net : Net} {res : CallToolResult}
    (h : (handle_list_vms st net).1 = .ok res) : res.isError = false := by
  unfold handle_list_vms at h
  split at h
  · simp at h
  · exact formatListVMs_okNoFlag h

theorem handle_get_vm_info_okNoFlag {vm_id : String} {st : ServerState} {net : Net}
    {res : CallToolResult}
    (h : (handle_get_vm_info vm_id st net).1 = .ok res) : res.isError = false := by
  unfold handle_get_vm_info at h
  split at h
  · simp at h
  · exact formatVMInfo_okNoFlag h

theorem handle_power_vm_okNoFlag {vm_id action : String} {st : ServerState} {net : Net}
    {res : CallToolResult}
    (h : (handle_power_vm vm_id action st net).1 = .ok res) : res.isError = false := by
  unfold handle_power_vm at h
  split at h
  · simp at h
  · exact formatPowerVM_okNoFlag h

theorem handle_call_tool_try_okNoFlag {name : String} {args : List (String × JValue)}
    {st : ServerState} {net : Net} {res : CallToolResult}
    (h : (handle_call_tool_try name args st net).1 = .ok res) : res.isError = false := by
  unfold handle_call_tool_try at h
  split at h
  · exact handle_list_vms_okNoFlag h
  · split at h
    · split at h
      · simp at h
      · exact handle_get_vm_info_okNoFlag h
    · split at h
      · split at h
        · simp at h
        · exact handle_power_vm_okNoFlag h
      · simp at h

/-! ## Claim theorems -/

/-- Claim C1: for every tool name and argument mapping (and every transport
behavior and dispatcher state), `handle_call_tool` returns a Tool Call
Result envelope — its Lean type is total, so no fault propagates — and
whenever the envelope carries `is_error = true` it is the converted form of
a caught exception, with text beginning with `"Error: "` (which subsumes
the unknown-tool case, whose text is `"Error: Unknown tool: ..."`). -/
theorem dispatch_total_error_envelope (name : String) (args : List (String × JValue))
    (st : ServerState) (net : Net) :
    (handle_call_tool name args st net).1.isError = false ∨
    ((handle_call_tool name args st net).1.isError = true ∧
      ∃ rest, (handle_call_tool name args st net).1.text = "Error: " ++ rest) := by
  unfold handle_call_tool
  rcases htry : handle_call_tool_try name args st net with ⟨fst, st2, reqs⟩
  cases fst with
  | ok res =>
    left
    have hres : res.isError = false := handle_call_tool_try_okNoFlag (by rw [htry])
    simpa using hres
  | error e =>
    right
    exact ⟨rfl, e.msg, rfl⟩

/-- A transport that answers every request with HTTP 200 and an empty VM
list, used to exercise the dispatcher on concrete inputs. -/
def emptyListNet : Net := fun _ => .ok ⟨200, "[]", .arr []⟩

/-- Claim C2 (the code refutes it): `get_vmware_client` stores a global
client whose httpx session `__aexit__` closes at the end of every dispatch,
while `__aenter__` never re-opens it; so against a transport that always
answers 200, the first `list_vms` dispatch succeeds with one GET, but the
second dispatch from the resulting state issues zero network calls and
returns the converted httpx `RuntimeError` envelope instead of reaching
the network. -/
theorem second_dispatch_hits_closed_client :
    (handle_call_tool "list_vms" [] ServerState.init emptyListNet).1.isError = false ∧
    (handle_call_tool "list_vms" [] ServerState.init emptyListNet).2.2 =
      [⟨"GET", "http://localhost:8697/fusionsvc/vms"⟩] ∧
    (handle_call_tool "list_vms" []
        (handle_call_tool "list_vms" [] ServerState.init emptyListNet).2.1 emptyListNet).1.isError = true ∧
    (handle_call_tool "list_vms" []
        (handle_call_tool "list_vms" [] ServerState.init emptyListNet).2.1 emptyListNet).1.text =
      "Error: Cannot send a request, as the client has been closed." ∧
    (handle_call_tool "list_vms" []
        (handle_call_tool "list_vms" [] ServerState.init emptyListNet).2.1 emptyListNet).2.2 = [] :=
  ⟨rfl, rfl, rfl, rfl, rfl⟩

/-- Claim C3, counterexample: the unknown-tool text is not exactly
`"Unknown tool: {name}"` — the `ValueError` is converted by the blanket
handler, so the text carries the `"Error: "` prefix.  Zero network calls
and `is_error = true` do hold. -/
theorem unknown_tool_text_not_exact :
    (handle_call_tool "unknown_tool" [] ServerState.init emptyListNet).1.text ≠
      "Unknown tool: unknown_tool" ∧
    (handle_call_tool "unknown_tool" [] ServerState.init emptyListNet).1.text =
      "Error: Unknown tool: unknown_tool" ∧
    (handle_call_tool "unknown_tool" [] ServerState.init emptyListNet).1.isError = true ∧
    (handle_call_tool "unknown_tool" [] ServerState.init emptyListNet).2.2 = [] :=
  ⟨by decide, rfl, rfl, rfl⟩

/-- Claim C3 as amended: for every name outside the three-entry catalog and
every argument mapping, dispatch returns the error envelope with text
exactly `"Error: Unknown tool: {name}"`, `is_error = true`, unchanged
state, and zero network calls. -/
theorem unknown_tool_error_envelope (name : String) (args : List (String × JValue))
    (st : ServerState) (net : Net)
    (h1 : name ≠ "list_vms") (h2 : name ≠ "get_vm_info") (h3 : name ≠ "power_vm") :
    handle_call_tool name args st net =
      (⟨"Error: Unknown tool: " ++ name, none, true⟩, st, []) := by
  have hfold : "Error: " ++ ("Unknown tool: " ++ name) = "Error: Unknown tool: " ++ name := by
    rw [← String.append_assoc]
    rfl
  simp [handle_call_tool, handle_call_tool_try, h1, h2, h3, hfold]

/-- Witness for the amended C3 at the concrete name `"unknown_tool"`. -/
theorem unknown_tool_error_envelope_witness :
    handle_call_tool "unknown_tool" [] ServerState.init emptyListNet =
      (⟨"Error: Unknown tool: " ++ "unknown_tool", none, true⟩, ServerState.init, []) :=
  unknown_tool_error_envelope "unknown_tool" [] ServerState.init emptyListNet
    (by decide) (by decide) (by decide)

/-- Claim C4: `power_vm` with an action outside the six-token set fails
immediately with the `ValueError` naming the offending value and the valid
set, and hands zero requests to the transport; with an action inside the
set (on an open client) the validation passes and exactly one POST to
`{base_url}/fusionsvc/vms/{vm_id}/{action}` is issued, whatever the
transport answers. -/
theorem power_vm_action_validation (c : VMwareClient) (net : Net) (vm_id action : String) :
    (action ∉ validActions →
      c.power_vm net vm_id action = (.error (invalidActionErr action), [])) ∧
    (action ∈ validActions → c.closed = false →
      (c.power_vm net vm_id action).2 =
        [⟨"POST", c.base_url ++ "/fusionsvc/vms/" ++ vm_id ++ "/" ++ action⟩]) := by
  constructor
  · intro h
    simp [VMwareClient.power_vm, h]
  · intro hmem hopen
    unfold VMwareClient.power_vm
    rw [if_neg (not_not_intro hmem), if_neg (by simp [hopen])]
    cases hnet : net ⟨"POST", c.base_url ++ "/fusionsvc/vms/" ++ vm_id ++ "/" ++ action⟩ with
    | error cause => rfl
    | ok resp => dsimp only; split_ifs <;> rfl

/-- Witness for C4 at the invalid action `"bogus"` and the valid action
`"on"` on a fresh client. -/
theorem power_vm_action_validation_witness :
    ("bogus" ∉ validActions ∧
      (VMwareClient.new defaultBaseUrl).power_vm emptyListNet "vm1" "bogus" =
        (.error (invalidActionErr "bogus"), [])) ∧
    ("on" ∈ validActions ∧ (VMwareClient.new defaultBaseUrl).closed = false ∧
      ((VMwareClient.new defaultBaseUrl).power_vm emptyListNet "vm1" "on").2 =
        [⟨"POST", (VMwareClient.new defaultBaseUrl).base_url ++ "/fusionsvc/vms/" ++ "vm1" ++ "/" ++ "on"⟩]) :=
  ⟨⟨by decide,
    (power_vm_action_validation (VMwareClient.new defaultBaseUrl) emptyListNet "vm1" "bogus").1
      (by decide)⟩,
   ⟨by decide, rfl,
    (power_vm_action_validation (VMwareClient.new defaultBaseUrl) emptyListNet "vm1" "on").2
      (by decide) rfl⟩⟩

/-- A transport that answers every request with HTTP 200 and an empty JSON
object body. -/
def emptyObjNet : Net := fun _ => .ok ⟨200, "\x7b\x7d", .obj []⟩

/-- Claim C5, counterexample: `GetVMInfoParams` declares `vm_id : str` with
no non-empty constraint, so `dispatch("get_vm_info", {"vm_id": ""})` passes
validation and issues a GET to `{base_url}/fusionsvc/vms/` — contradicting
the claim that an empty `vm_id` yields an error envelope with no network
call. -/
theorem empty_vm_id_reaches_network :
    (handle_call_tool "get_vm_info" [("vm_id", .str "")] ServerState.init emptyObjNet).2.2 =
      [⟨"GET", "http://localhost:8697/fusionsvc/vms/"⟩] ∧
    (handle_call_tool "get_vm_info" [("vm_id", .str "")] ServerState.init emptyObjNet).1.isError = false :=
  ⟨rfl, rfl⟩

/-- Claim C5 as amended: an argument mapping whose required field is
missing or not a string makes dispatch return an error envelope (text
beginning `"Error: "`, `is_error = true`) with unchanged state and zero
network calls, for both `get_vm_info` (field `vm_id`) and `power_vm`
(fields `vm_id`, `action`); an empty-string `vm_id`, however, passes
validation (see the counterexample). -/
theorem schema_validation_failure_no_network (args : List (String × JValue))
    (st : ServerState) (net : Net) :
    ((∀ s, jLookup "vm_id" args ≠ some (JValue.str s)) →
      (handle_call_tool "get_vm_info" args st net).1.isError = true ∧
      (∃ rest, (handle_call_tool "get_vm_info" args st net).1.text = "Error: " ++ rest) ∧
      (handle_call_tool "get_vm_info" args st net).2 = (st, [])) ∧
    (((∀ s, jLookup "vm_id" args ≠ some (JValue.str s)) ∨
      (∀ s, jLookup "action" args ≠ some (JValue.str s))) →
      (handle_call_tool "power_vm" args st net).1.isError = true ∧
      (∃ rest, (handle_call_tool "power_vm" args st net).1.text = "Error: " ++ rest) ∧
      (handle_call_tool "power_vm" args st net).2 = (st, [])) := by
  constructor
  · intro h
    have hv : ∃ e : PyError, validateGetVMInfoParams args = .error e := by
      unfold validateGetVMInfoParams
      cases hl : jLookup "vm_id" args with
      | none => exact ⟨_, rfl⟩
      | some v =>
        cases v <;> first
          | exact ⟨_, rfl⟩
          | exact absurd hl (h _)
    obtain ⟨e, he⟩ := hv
    refine ⟨?_, ⟨e.msg, ?_⟩, ?_⟩ <;> simp [handle_call_tool, handle_call_tool_try, he]
  · intro h
    have hv : ∃ e : PyError, validatePowerVMParams args = .error e := by
      unfold validatePowerVMParams
      cases hl : jLookup "vm_id" args with
      | none =>
        cases ha : jLookup "action" args with
        | none => exact ⟨_, rfl⟩
        | some w => cases w <;> exact ⟨_, rfl⟩
      | some v =>
        cases ha : jLookup "action" args with
        | none => cases v <;> exact ⟨_, rfl⟩
        | some w =>
          cases v <;> cases w <;>
            first
              | exact ⟨_, rfl⟩
              | exact h.elim (fun h1 => absurd hl (h1 _)) (fun h2 => absurd ha (h2 _))
    obtain ⟨e, he⟩ := hv
    refine ⟨?_, ⟨e.msg, ?_⟩, ?_⟩ <;> simp [handle_call_tool, handle_call_tool_try, he]

/-- Witness for the amended C5: a wrong-typed `vm_id` (an int) fails both
tools without touching the network. -/
theorem schema_validation_failure_no_network_witness :
    ((handle_call_tool "get_vm_info" [("vm_id", JValue.int 7)] ServerState.init emptyListNet).1.isError = true ∧
      (∃ rest, (handle_call_tool "get_vm_info" [("vm_id", JValue.int 7)] ServerState.init emptyListNet).1.text = "Error: " ++ rest) ∧
      (handle_call_tool "get_vm_info" [("vm_id", JValue.int 7)] ServerState.init emptyListNet).2 = (ServerState.init, [])) ∧
    ((handle_call_tool "power_vm" [("vm_id", JValue.int 7)] ServerState.init emptyListNet).1.isError = true ∧
      (∃ rest, (handle_call_tool "power_vm" [("vm_id", JValue.int 7)] ServerState.init emptyListNet).1.text = "Error: " ++ rest) ∧
      (handle_call_tool "power_vm" [("vm_id", JValue.int 7)] ServerState.init emptyListNet).2 = (ServerState.init, [])) :=
  ⟨(schema_validation_failure_no_network [("vm_id", JValue.int 7)] ServerState.init emptyListNet).1
      (by intro s h; simp [jLookup] at h),
   (schema_validation_failure_no_network [("vm_id", JValue.int 7)] ServerState.init emptyListNet).2
      (Or.inl (by intro s h; simp [jLookup] at h))⟩

/-- Claim C6: on the VM-id-scoped operations (`get_vm_info`, `power_vm`) an
HTTP 404 fails with the tailored `VM with ID '{vm_id}' not found` message
(`notFoundErr`), and on any of the three operations every other non-2xx
status fails with `VMware Fusion API error: {status} - {body}` (`apiErr`),
in each case after exactly the one request of that operation. -/
theorem client_http_error_mapping (c : VMwareClient) (net : Net)
    (vm_id action : String) (resp : HttpResponse) (hopen : c.closed = false) :
    (net ⟨"GET", c.base_url ++ "/fusionsvc/vms/" ++ vm_id⟩ = .ok resp → resp.status = 404 →
      c.get_vm_info net vm_id =
        (.error (notFoundErr vm_id), [⟨"GET", c.base_url ++ "/fusionsvc/vms/" ++ vm_id⟩])) ∧
    (action ∈ validActions →
      net ⟨"POST", c.base_url ++ "/fusionsvc/vms/" ++ vm_id ++ "/" ++ action⟩ = .ok resp →
      resp.status = 404 →
      c.power_vm net vm_id action =
        (.error (notFoundErr vm_id), [⟨"POST", c.base_url ++ "/fusionsvc/vms/" ++ vm_id ++ "/" ++ action⟩])) ∧
    (¬(200 ≤ resp.status ∧ resp.status < 300) → resp.status ≠ 404 →
      (net ⟨"GET", c.base_url ++ "/fusionsvc/vms"⟩ = .ok resp →
        c.list_vms net =
          (.error (apiErr resp.status resp.text), [⟨"GET", c.base_url ++ "/fusionsvc/vms"⟩])) ∧
      (net ⟨"GET", c.base_url ++ "/fusionsvc/vms/" ++ vm_id⟩ = .ok resp →
        c.get_vm_info net vm_id =
          (.error (apiErr resp.status resp.text), [⟨"GET", c.base_url ++ "/fusionsvc/vms/" ++ vm_id⟩])) ∧
      (action ∈ validActions →
        net ⟨"POST", c.base_url ++ "/fusionsvc/vms/" ++ vm_id ++ "/" ++ action⟩ = .ok resp →
        c.power_vm net vm_id action =
          (.error (apiErr resp.status resp.text), [⟨"POST", c.base_url ++ "/fusionsvc/vms/" ++ vm_id ++ "/" ++ action⟩]))) := by
  refine ⟨?_, ?_, ?_⟩
  · intro hnet hst
    unfold VMwareClient.get_vm_info
    rw [if_neg (by simp [hopen]), hnet]
    dsimp only
    rw [if_neg (by rw [hst]; decide), if_pos hst]
  · intro hmem hnet hst
    unfold VMwareClient.power_vm
    rw [if_neg (not_not_intro hmem), if_neg (by simp [hopen]), hnet]
    dsimp only
    rw [if_neg (by rw [hst]; decide), if_pos hst]
  · intro h2xx h404
    refine ⟨?_, ?_, ?_⟩
    · intro hnet
      unfold VMwareClient.list_vms
      rw [if_neg (by simp [hopen]), hnet]
      dsimp only
      rw [if_neg h2xx]
    · intro hnet
      unfold VMwareClient.get_vm_info
      rw [if_neg (by simp [hopen]), hnet]
      dsimp only
      rw [if_neg h2xx, if_neg h404]
    · intro hmem hnet
      unfold VMwareClient.power_vm
      rw [if_neg (not_not_intro hmem), if_neg (by simp [hopen]), hnet]
      dsimp only
      rw [if_neg h2xx, if_neg h404]

/-- A 404 response with body `Not Found`. -/
def resp404 : HttpResponse := ⟨404, "Not Found", .null⟩

/-- A 500 response with body `Internal Server Error`. -/
def resp500 : HttpResponse := ⟨500, "Internal Server Error", .null⟩

/-- A transport answering 404 to everything. -/
def net404 : Net := fun _ => .ok resp404

/-- A transport answering 500 to everything. -/
def net500 : Net := fun _ => .ok resp500

/-- Witness for C6: 404 on `get_vm_info "vm1"` gives the tailored message,
and 500 with body `Internal Server Error` on `list_vms` gives the generic
`VMware Fusion API error: 500 - Internal Server Error`. -/
theorem client_http_error_mapping_witness :
    ((VMwareClient.new defaultBaseUrl).get_vm_info net404 "vm1" =
      (.error (notFoundErr "vm1"),
        [⟨"GET", (VMwareClient.new defaultBaseUrl).base_url ++ "/fusionsvc/vms/" ++ "vm1"⟩])) ∧
    ((VMwareClient.new defaultBaseUrl).list_vms net500 =
      (.error (apiErr 500 "Internal Server Error"),
        [⟨"GET", (VMwareClient.new defaultBaseUrl).base_url ++ "/fusionsvc/vms"⟩])) :=
  ⟨(client_http_error_mapping (VMwareClient.new defaultBaseUrl) net404 "vm1" "on" resp404 rfl).1 rfl rfl,
   ((client_http_error_mapping (VMwareClient.new defaultBaseUrl) net500 "vm1" "on" resp500 rfl).2.2
      (by decide) (by decide)).1 rfl⟩

/-- A transport answering 200 with body `{"status": ""}`: the result
mapping has a `status` field whose value is falsy. -/
def falsyStatusNet : Net :=
  fun _ => .ok ⟨200, "\x7b\"status\": \"\"\x7d", .obj [("status", .str "")]⟩

/-- Claim C7, counterexample: `if result.get("status"):` is a truthiness
test, not a presence test — when the remote returns `{"status": ""}` the
result mapping has a `status` field, yet the text gets no
`" - Status: ..."` suffix. -/
theorem power_vm_falsy_status_no_append :
    (jLookup "status" [("status", JValue.str "")]).isSome = true ∧
    (handle_call_tool "power_vm" [("vm_id", .str "vm1"), ("action", .str "on")]
        ServerState.init falsyStatusNet).1.structuredContent = some (.obj [("status", JValue.str "")]) ∧
    (handle_call_tool "power_vm" [("vm_id", .str "vm1"), ("action", .str "on")]
        ServerState.init falsyStatusNet).1.text = "Successfully performed \x27on\x27 action on VM vm1" ∧
    (handle_call_tool "power_vm" [("vm_id", .str "vm1"), ("action", .str "on")]
        ServerState.init falsyStatusNet).1.text ≠
      "Successfully performed \x27on\x27 action on VM vm1" ++ " - Status: " ++ pyStr (JValue.str "") :=
  ⟨rfl, rfl, rfl, by decide⟩

/-- Claim C7 as amended: on every successful `power_vm` dispatch the text
is `Successfully performed '{action}' action on VM {vm_id}`, with
`" - Status: {status}"` appended exactly when the result mapping has a
`status` field with a truthy value; the structured content is the result
mapping unmodified, which — when the remote body is empty — is the
synthesized `{"status": "success", "action": action}`. -/
theorem power_vm_success_format (st : ServerState) (net : Net) (vm_id action : String)
    (resp : HttpResponse) (fields : List (String × JValue))
    (hopen : st.effClient.closed = false)
    (hact : action ∈ validActions)
    (hnet : net ⟨"POST", st.effClient.base_url ++ "/fusionsvc/vms/" ++ vm_id ++ "/" ++ action⟩ = .ok resp)
    (h2xx : 200 ≤ resp.status ∧ resp.status < 300)
    (hres : (if resp.text = "" then
               JValue.obj [("status", .str "success"), ("action", .str action)]
             else resp.jsonVal) = .obj fields) :
    (handle_call_tool "power_vm" [("vm_id", .str vm_id), ("action", .str action)] st net).1.isError = false ∧
    (handle_call_tool "power_vm" [("vm_id", .str vm_id), ("action", .str action)] st net).1.structuredContent = some (.obj fields) ∧
    (resp.text = "" → JValue.obj fields = .obj [("status", .str "success"), ("action", .str action)]) ∧
    (handle_call_tool "power_vm" [("vm_id", .str vm_id), ("action", .str action)] st net).1.text =
      (match jLookup "status" fields with
       | some sv =>
         if pyTruthy sv then
           "Successfully performed \x27" ++ action ++ "\x27 action on VM " ++ vm_id ++ " - Status: " ++ pyStr sv
         else "Successfully performed \x27" ++ action ++ "\x27 action on VM " ++ vm_id
       | none => "Successfully performed \x27" ++ action ++ "\x27 action on VM " ++ vm_id) := by
  have hpv : (st.effClient).power_vm net vm_id action =
      (.ok (.obj fields), [⟨"POST", st.effClient.base_url ++ "/fusionsvc/vms/" ++ vm_id ++ "/" ++ action⟩]) := by
    unfold VMwareClient.power_vm
    rw [if_neg (not_not_intro hact), if_neg (by simp [hopen]), hnet]
    dsimp only
    rw [if_pos h2xx, hres]
  have hh : handle_power_vm vm_id action st net =
      (formatPowerVM vm_id action (.obj fields), st.afterDispatch,
        [⟨"POST", st.effClient.base_url ++ "/fusionsvc/vms/" ++ vm_id ++ "/" ++ action⟩]) := by
    unfold handle_power_vm
    rw [hpv]
  have hfinal : handle_call_tool "power_vm" [("vm_id", .str vm_id), ("action", .str action)] st net =
      (⟨(match jLookup "status" fields with
         | some sv =>
           if pyTruthy sv then
             "Successfully performed \x27" ++ action ++ "\x27 action on VM " ++ vm_id ++ " - Status: " ++ pyStr sv
           else "Successfully performed \x27" ++ action ++ "\x27 action on VM " ++ vm_id
         | none => "Successfully performed \x27" ++ action ++ "\x27 action on VM " ++ vm_id),
        some (.obj fields), false⟩, st.afterDispatch,
        [⟨"POST", st.effClient.base_url ++ "/fusionsvc/vms/" ++ vm_id ++ "/" ++ action⟩]) := by
    unfold handle_call_tool
    have htry : handle_call_tool_try "power_vm" [("vm_id", .str vm_id), ("action", .str action)] st net =
        (formatPowerVM vm_id action (.obj fields), st.afterDispatch,
          [⟨"POST", st.effClient.base_url ++ "/fusionsvc/vms/" ++ vm_id ++ "/" ++ action⟩]) := by
      simp [handle_call_tool_try, validatePowerVMParams, jLookup, hh]
    rw [htry]
    unfold formatPowerVM
    dsimp only
  rw [hfinal]
  exact ⟨rfl, rfl, fun ht => by rw [← hres, if_pos ht], rfl⟩

/-- A transport answering 200 with an empty body. -/
def emptyBodyNet : Net := fun _ => .ok ⟨200, "", .null⟩

/-- Witness for the amended C7: against an empty-body remote, the dispatch
synthesizes `{"status": "success", "action": "on"}` and appends the status
suffix (the synthesized status `"success"` is truthy). -/
theorem power_vm_success_format_witness :
    (handle_call_tool "power_vm" [("vm_id", .str "vm1"), ("action", .str "on")]
        ServerState.init emptyBodyNet).1.isError = false ∧
    (handle_call_tool "power_vm" [("vm_id", .str "vm1"), ("action", .str "on")]
        ServerState.init emptyBodyNet).1.structuredContent =
      some (.obj [("status", .str "success"), ("action", .str "on")]) ∧
    (("" : String) = "" →
      JValue.obj [("status", JValue.str "success"), ("action", JValue.str "on")] =
        .obj [("status", .str "success"), ("action", .str "on")]) ∧
    (handle_call_tool "power_vm" [("vm_id", .str "vm1"), ("action", .str "on")]
        ServerState.init emptyBodyNet).1.text =
      (match jLookup "status" [("status", JValue.str "success"), ("action", JValue.str "on")] with
       | some sv =>
         if pyTruthy sv then
           "Successfully performed \x27" ++ "on" ++ "\x27 action on VM " ++ "vm1" ++ " - Status: " ++ pyStr sv
         else "Successfully performed \x27" ++ "on" ++ "\x27 action on VM " ++ "vm1"
       | none => "Successfully performed \x27" ++ "on" ++ "\x27 action on VM " ++ "vm1") := by
  exact power_vm_success_format ServerState.init emptyBodyNet "vm1" "on" ⟨200, "", .null⟩
    [("status", .str "success"), ("action", .str "on")] rfl (by decide) rfl (by decide) rfl

/-- The `list_vms` text as the claim words it (the spec side of C8): empty
sequence gives the fixed sentence; otherwise a header line, a separator of
50 `=`, then per VM `ID: {id}` and `Path: {path}` (`Unknown` when the
field is absent) and a separator of 30 `-`. -/
def specListVMsText (vms : List (List (String × JValue))) : String :=
  match vms with
  | [] => "No VMs found in VMware Fusion."
  | _ =>
    String.intercalate "\n"
      ("VMware Fusion VMs:" :: sepLine (Char.ofNat 61) 50 ::
        vms.flatMap (fun fields =>
          ["ID: " ++ pyStr ((jLookup "id" fields).getD (.str "Unknown")),
           "Path: " ++ pyStr ((jLookup "path" fields).getD (.str "Unknown")),
           sepLine (Char.ofNat 45) 30]))

theorem iterVMLines_objs (vms : List (List (String × JValue))) :
    iterVMLines (vms.map JValue.obj) =
      .ok (vms.flatMap (fun fields =>
        ["ID: " ++ pyStr ((jLookup "id" fields).getD (.str "Unknown")),
         "Path: " ++ pyStr ((jLookup "path" fields).getD (.str "Unknown")),
         sepLine (Char.ofNat 45) 30])) := by
  induction vms with
  | nil => rfl
  | cons hd tl ih => simp [iterVMLines, ih]

theorem formatListVMs_objs (vms : List (List (String × JValue))) :
    formatListVMs (.arr (vms.map JValue.obj)) =
      .ok ⟨specListVMsText vms,
           some (.obj [("vms", .arr (vms.map JValue.obj))]), false⟩ := by
  cases vms with
  | nil => rfl
  | cons hd tl =>
    unfold formatListVMs
    rw [if_pos (by simp [pyTruthy])]
    dsimp only [pyIter]
    rw [iterVMLines_objs]
    rfl

/-- Claim C8: for every sequence of VM summary mappings returned by the
remote API, a successful `list_vms` dispatch produces exactly the text of
`specListVMsText` (fixed sentence when empty; header, 50-`=` separator,
per-VM `ID:`/`Path:` lines with `Unknown` for absent fields and 30-`-`
separators otherwise) and structured content `{vms: <the full sequence>}`. -/
theorem list_vms_dispatch_format (st : ServerState) (net : Net)
    (vms : List (List (String × JValue))) (resp : HttpResponse)
    (hopen : st.effClient.closed = false)
    (hnet : net ⟨"GET", st.effClient.base_url ++ "/fusionsvc/vms"⟩ = .ok resp)
    (h2xx : 200 ≤ resp.status ∧ resp.status < 300)
    (hjson : resp.jsonVal = .arr (vms.map JValue.obj)) :
    (handle_call_tool "list_vms" [] st net).1.isError = false ∧
    (handle_call_tool "list_vms" [] st net).1.structuredContent =
      some (.obj [("vms", .arr (vms.map JValue.obj))]) ∧
    (handle_call_tool "list_vms" [] st net).1.text = specListVMsText vms ∧
    (handle_call_tool "list_vms" [] st net).2.2 =
      [⟨"GET", st.effClient.base_url ++ "/fusionsvc/vms"⟩] := by
  have hlv : (st.effClient).list_vms net =
      (.ok (.arr (vms.map JValue.obj)), [⟨"GET", st.effClient.base_url ++ "/fusionsvc/vms"⟩]) := by
    unfold VMwareClient.list_vms
    rw [if_neg (by simp [hopen]), hnet]
    dsimp only
    rw [if_pos h2xx, hjson]
  have hfinal : handle_call_tool "list_vms" [] st net =
      (⟨specListVMsText vms, some (.obj [("vms", .arr (vms.map JValue.obj))]), false⟩,
        st.afterDispatch, [⟨"GET", st.effClient.base_url ++ "/fusionsvc/vms"⟩]) := by
    unfold handle_call_tool
    have htry : handle_call_tool_try "list_vms" [] st net =
        (formatListVMs (.arr (vms.map JValue.obj)), st.afterDispatch,
          [⟨"GET", st.effClient.base_url ++ "/fusionsvc/vms"⟩]) := by
      simp [handle_call_tool_try, handle_list_vms, hlv]
    rw [htry, formatListVMs_objs]
  rw [hfinal]
  exact ⟨rfl, rfl, rfl, rfl⟩

/-- A transport answering `GET /fusionsvc/vms` with the one-VM fixture of
the spec's testable properties. -/
def vm1ListNet : Net :=
  fun _ => .ok ⟨200, "[\x7b\"id\": \"vm1\", \"path\": \"/path/to/vm1.vmx\"\x7d]",
    .arr [.obj [("id", .str "vm1"), ("path", .str "/path/to/vm1.vmx")]]⟩

/-- Witness for C8 at the fixture `[{"id": "vm1", "path": "/path/to/vm1.vmx"}]`. -/
theorem list_vms_dispatch_format_witness :
    (handle_call_tool "list_vms" [] ServerState.init vm1ListNet).1.isError = false ∧
    (handle_call_tool "list_vms" [] ServerState.init vm1ListNet).1.structuredContent =
      some (.obj [("vms", .arr ([[("id", JValue.str "vm1"), ("path", JValue.str "/path/to/vm1.vmx")]].map JValue.obj))]) ∧
    (handle_call_tool "list_vms" [] ServerState.init vm1ListNet).1.text =
      specListVMsText [[("id", .str "vm1"), ("path", .str "/path/to/vm1.vmx")]] ∧
    (handle_call_tool "list_vms" [] ServerState.init vm1ListNet).2.2 =
      [⟨"GET", ServerState.init.effClient.base_url ++ "/fusionsvc/vms"⟩] :=
  list_vms_dispatch_format ServerState.init vm1ListNet
    [[("id", .str "vm1"), ("path", .str "/path/to/vm1.vmx")]]
    ⟨200, "[\x7b\"id\": \"vm1\", \"path\": \"/path/to/vm1.vmx\"\x7d]",
      .arr [.obj [("id", .str "vm1"), ("path", .str "/path/to/vm1.vmx")]]⟩
    rfl rfl (by decide) rfl

/-- Claim C9: a successful `get_vm_info` dispatch returns as structured
content exactly the detail mapping the remote API returned — the
association list `fields` unchanged, so nested values, arbitrary
JSON-compatible contents and the key order are all preserved. -/
theorem get_vm_info_structured_roundtrip (st : ServerState) (net : Net) (vm_id : String)
    (resp : HttpResponse) (fields : List (String × JValue))
    (hopen : st.effClient.closed = false)
    (hnet : net ⟨"GET", st.effClient.base_url ++ "/fusionsvc/vms/" ++ vm_id⟩ = .ok resp)
    (h2xx : 200 ≤ resp.status ∧ resp.status < 300)
    (hjson : resp.jsonVal = .obj fields) :
    (handle_call_tool "get_vm_info" [("vm_id", .str vm_id)] st net).1.isError = false ∧
    (handle_call_tool "get_vm_info" [("vm_id", .str vm_id)] st net).1.structuredContent =
      some (.obj fields) := by
  have hgv : (st.effClient).get_vm_info net vm_id =
      (.ok (.obj fields), [⟨"GET", st.effClient.base_url ++ "/fusionsvc/vms/" ++ vm_id⟩]) := by
    unfold VMwareClient.get_vm_info
    rw [if_neg (by simp [hopen]), hnet]
    dsimp only
    rw [if_pos h2xx, hjson]
  have hh : handle_get_vm_info vm_id st net =
      (formatVMInfo vm_id (.obj fields), st.afterDispatch,
        [⟨"GET", st.effClient.base_url ++ "/fusionsvc/vms/" ++ vm_id⟩]) := by
    unfold handle_get_vm_info
    rw [hgv]
  have htry : handle_call_tool_try "get_vm_info" [("vm_id", .str vm_id)] st net =
      (formatVMInfo vm_id (.obj fields), st.afterDispatch,
        [⟨"GET", st.effClient.base_url ++ "/fusionsvc/vms/" ++ vm_id⟩]) := by
    simp [handle_call_tool_try, validateGetVMInfoParams, jLookup, hh]
  unfold handle_call_tool
  rw [htry]
  unfold formatVMInfo
  dsimp only
  exact ⟨rfl, rfl⟩

/-- A transport answering a nested VM-detail mapping. -/
def vmInfoNet : Net :=
  fun _ => .ok ⟨200, "\x7b\"id\": \"vm1\", \"cpu\": \x7b\"cores\": 2\x7d\x7d",
    .obj [("id", .str "vm1"), ("cpu", .obj [("cores", .int 2)])]⟩

/-- Witness for C9 at the nested detail `{"id": "vm1", "cpu": {"cores": 2}}`. -/
theorem get_vm_info_structured_roundtrip_witness :
    (handle_call_tool "get_vm_info" [("vm_id", .str "vm1")] ServerState.init vmInfoNet).1.isError = false ∧
    (handle_call_tool "get_vm_info" [("vm_id", .str "vm1")] ServerState.init vmInfoNet).1.structuredContent =
      some (.obj [("id", .str "vm1"), ("cpu", .obj [("cores", .int 2)])]) :=
  get_vm_info_structured_roundtrip ServerState.init vmInfoNet "vm1"
    ⟨200, "\x7b\"id\": \"vm1\", \"cpu\": \x7b\"cores\": 2\x7d\x7d",
      .obj [("id", .str "vm1"), ("cpu", .obj [("cores", .int 2)])]⟩
    [("id", .str "vm1"), ("cpu", .obj [("cores", .int 2)])]
    rfl rfl (by decide) rfl

/-- Claim C10: dispatch reads only the fields declared by the named tool —
for `get_vm_info` (declared field: `vm_id`) two argument mappings with the
same `vm_id` lookup produce identical outcomes even if they differ in any
other key (including an undeclared `"action"` key); for `power_vm`
(declared fields: `vm_id`, `action`) agreement on those two lookups
suffices.  Extra undeclared keys never shadow the declared lookups, so
adding them changes envelope, state and network traffic not at all. -/
theorem dispatch_ignores_undeclared_args (args1 args2 : List (String × JValue))
    (st : ServerState) (net : Net) :
    (jLookup "vm_id" args1 = jLookup "vm_id" args2 →
      handle_call_tool "get_vm_info" args1 st net = handle_call_tool "get_vm_info" args2 st net) ∧
    (jLookup "vm_id" args1 = jLookup "vm_id" args2 →
      jLookup "action" args1 = jLookup "action" args2 →
      handle_call_tool "power_vm" args1 st net = handle_call_tool "power_vm" args2 st net) := by
  constructor
  · intro hv
    have h1 : validateGetVMInfoParams args1 = validateGetVMInfoParams args2 := by
      unfold validateGetVMInfoParams
      rw [hv]
    simp [handle_call_tool, handle_call_tool_try, h1]
  · intro hv ha
    have h2 : validatePowerVMParams args1 = validatePowerVMParams args2 := by
      unfold validatePowerVMParams
      rw [hv, ha]
    simp [handle_call_tool, handle_call_tool_try, h2]

/-- Witness for C10: adding the keys `"action"` and `"debug"` — both
undeclared for `get_vm_info` — to a `get_vm_info` call changes nothing,
and adding the undeclared `"debug"` to a `power_vm` call changes
nothing. -/
theorem dispatch_ignores_undeclared_args_witness :
    (handle_call_tool "get_vm_info" [("vm_id", .str "vm1")] ServerState.init emptyListNet =
      handle_call_tool "get_vm_info"
        [("vm_id", .str "vm1"), ("action", .str "on"), ("debug", .bool true)]
        ServerState.init emptyListNet) ∧
    (handle_call_tool "power_vm" [("vm_id", .str "vm1"), ("action", .str "on")]
        ServerState.init emptyListNet =
      handle_call_tool "power_vm"
        [("vm_id", .str "vm1"), ("action", .str "on"), ("debug", .bool true)]
        ServerState.init emptyListNet) :=
  ⟨(dispatch_ignores_undeclared_args [("vm_id", .str "vm1")]
      [("vm_id", .str "vm1"), ("action", .str "on"), ("debug", .bool true)]
      ServerState.init emptyListNet).1 rfl,
   (dispatch_ignores_undeclared_args [("vm_id", .str "vm1"), ("action", .str "on")]
      [("vm_id", .str "vm1"), ("action", .str "on"), ("debug", .bool true)]
      ServerState.init emptyListNet).2 rfl rfl⟩

end VMwareFusionMCP
